import Mathlib

/-!
Verification of the sz_pythonnet example scripts.

The repository contains three Python scripts (`add_data_sources.py`,
`initialize_config.py`, `senzing_python_net_example.py`) that call into an
external entity-resolution SDK.  This file gives a shallow embedding of the
control flow of those scripts: engine interactions become explicit event
traces, the external engine becomes an oracle supplying the data and failures
observed by the scripts, and the Python loops become structural recursions on
the oracle data.
-/

namespace SzPythonNet

/-! ## Export iteration (`SenzingClient.export_json_entities`) -/

/-- Engine calls made by `export_json_entities`. -/
inductive ExpEvent where
  | openExport
  | fetchNext
  | closeExport

/-- Whether an event is the `CloseExport` call. -/
def isCloseExport : ExpEvent → Bool
  | ExpEvent.closeExport => true
  | _ => false

/-- Whether an event is the `ExportJsonEntityReport` call. -/
def isOpenExport : ExpEvent → Bool
  | ExpEvent.openExport => true
  | _ => false

/-- The loop guard `if max_entities and count >= max_entities: break` uses
Python truthiness: `None` and `0` are falsy, so the cap only fires for a
nonzero `max_entities` with `count >= max_entities`. -/
def pyCapReached (maxEntities : Option Nat) (count : Nat) : Bool :=
  match maxEntities with
  | none => false
  | some m => decide (m ≠ 0) && decide (m ≤ count)

/-- Entities yielded by the generator body of `export_json_entities` when the
consumer drives it to its own end: `FetchNext` pops the next available entity
(`[]` plays the role of `FetchNext` returning `None`), and the cap test runs
before each yield. -/
def exportYields (maxEntities : Option Nat) (count : Nat) :
    List String → List String
  | [] => []
  | e :: rest =>
      if pyCapReached maxEntities count then []
      else e :: exportYields maxEntities (count + 1) rest

/-- Outcome of one use of the `export_json_entities` generator. -/
structure ExpRun where
  trace : List ExpEvent
  yielded : List String

/-- One use of `export_json_entities`: the generator opens the export handle,
fetches and yields entities, and its `finally` block issues `CloseExport`
however iteration ends.  `consumerStop = some k` models the consumer
abandoning iteration (early `break` or an exception) after `k` yields; `none`
models the consumer exhausting the generator.  Each yield is preceded by one
`FetchNext`, and a run that ends inside the generator (cap break or
exhaustion) makes one further `FetchNext`. -/
def exportRun (maxEntities : Option Nat) (available : List String)
    (consumerStop : Option Nat) : ExpRun :=
  let full := exportYields maxEntities 0 available
  match consumerStop with
  | some k =>
      if k < full.length then
        { yielded := full.take k,
          trace := ExpEvent.openExport ::
            (List.replicate k ExpEvent.fetchNext ++ [ExpEvent.closeExport]) }
      else
        { yielded := full,
          trace := ExpEvent.openExport ::
            (List.replicate (full.length + 1) ExpEvent.fetchNext ++
              [ExpEvent.closeExport]) }
  | none =>
      { yielded := full,
        trace := ExpEvent.openExport ::
          (List.replicate (full.length + 1) ExpEvent.fetchNext ++
            [ExpEvent.closeExport]) }

/-! ## Redo-record draining (`SenzingClient.process_redo_records`) -/

/-- The loop of `process_redo_records`, entered right after a `GetRedoRecord`
call whose pending queue is the argument list (`[]` plays the role of
`GetRedoRecord` returning `None`; a `cons` is a fetched record, popped from
the engine queue).  Returns the yielded records and the number of
`GetRedoRecord` calls made, counting the call that produced the scrutinee. -/
def redoGo (maxRecords : Nat) (processed : Nat) :
    List String → List String × Nat
  | [] => ([], 1)
  | r :: rest =>
      if processed < maxRecords then
        let p := redoGo maxRecords (processed + 1) rest
        (r :: p.1, p.2 + 1)
      else ([], 1)

/-- `process_redo_records(max_records)` run against an engine whose pending
redo queue is `queue`: `processed = 0`, one initial `GetRedoRecord`, then the
`while redo_record is not None and processed < max_records` loop, each
iteration processing and yielding the fetched record and fetching the next.
Returns (yielded records, number of `GetRedoRecord` calls). -/
def process_redo_records (maxRecords : Nat) (queue : List String) :
    List String × Nat :=
  redoGo maxRecords 0 queue

/-! ## The `add_data_sources.py` script -/

/-- Engine calls made by the `add_data_sources.py` module body. -/
inductive AdsEvent where
  | getDefaultConfigID
  | createConfig
  | getDataSourceRegistry
  | registerDataSource (code : String)
  | exportConfig
  | registerConfig
  | replaceDefaultConfigID
  | destroy

/-- Whether an event is the `env.Destroy()` call. -/
def isDestroy : AdsEvent → Bool
  | AdsEvent.destroy => true
  | _ => false

/-- The code of a `RegisterDataSource` event, if any. -/
def registerCode : AdsEvent → Option String
  | AdsEvent.registerDataSource c => some c
  | _ => none

/-- The data-source codes extracted from a trace, in order. -/
def registerCalls (t : List AdsEvent) : List String :=
  t.filterMap registerCode

/-- The codes the script tries to add, hard-coded in its `for` loop. -/
def candidateCodes : List String := ["CUSTOMERS", "EMPLOYEES"]

/-- The filter at lines 94-97 of `add_data_sources.py`: candidate codes not
already present in the data-source registry read from the engine. -/
def dataSourcesToAdd (existing : List String) : List String :=
  candidateCodes.filter fun c => !(existing.contains c)

/-- The behaviour of the external engine observed by one run of
`add_data_sources.py`: the data-source registry of the current default
config, which per-code `RegisterDataSource` calls raise (caught by the
per-item handler at lines 108-112), and whether `ReplaceDefaultConfigID`
raises (reaching the top-level handler at lines 139-143). -/
structure AdsOracle where
  registry : List String
  registerFails : String → Bool
  replaceFails : Bool

/-- Outcome of one run of the `add_data_sources.py` module body after the
environment handle was successfully built. -/
structure AdsRun where
  trace : List AdsEvent
  exitCode : Nat
  registryAfter : List String
  perItemCaught : List String

/-- The module body of `add_data_sources.py` (lines 75-143), given the
environment was built: read the default config id, snapshot the config, read
its data-source registry, filter the candidates, and either exit 0 at once
(nothing to add, `Destroy` then `sys.exit(0)`), or register each missing
code (per-code failures caught and logged), export and register the new
config, and compare-and-swap the default.  A `ReplaceDefaultConfigID`
failure propagates to the top-level `except`, which prints and exits 1
without calling `Destroy`; on success the script verifies, destroys, and
falls off the module end with exit code 0.  `registryAfter` is the
data-source registry of the default config after the run. -/
def addDataSources (o : AdsOracle) : AdsRun :=
  let pre := [AdsEvent.getDefaultConfigID, AdsEvent.createConfig,
    AdsEvent.getDataSourceRegistry]
  let toAdd := dataSourcesToAdd o.registry
  if toAdd.isEmpty then
    { trace := pre ++ [AdsEvent.destroy], exitCode := 0,
      registryAfter := o.registry, perItemCaught := [] }
  else
    let regEvents := toAdd.map AdsEvent.registerDataSource
    let caught := toAdd.filter o.registerFails
    let added := toAdd.filter fun c => !(o.registerFails c)
    if o.replaceFails then
      { trace := pre ++ regEvents ++ [AdsEvent.exportConfig,
          AdsEvent.registerConfig, AdsEvent.replaceDefaultConfigID],
        exitCode := 1, registryAfter := o.registry, perItemCaught := caught }
    else
      { trace := pre ++ regEvents ++ [AdsEvent.exportConfig,
          AdsEvent.registerConfig, AdsEvent.replaceDefaultConfigID,
          AdsEvent.getDefaultConfigID, AdsEvent.destroy],
        exitCode := 0, registryAfter := o.registry ++ added,
        perItemCaught := caught }

/-- An oracle on which every engine call succeeds. -/
def allOkOracle (registry : List String) : AdsOracle :=
  { registry := registry, registerFails := fun _ => false,
    replaceFails := false }

/-! ## Configuration-file key lookups -/

/-- The required keys of `config.json` as the scripts read them:
`CONFIG["python"]["dll_path"]` and `CONFIG["senzing"]["senzing_root"]`; a
`none` models the key (or its parent) being absent, in which case the Python
subscript raises `KeyError`. -/
structure RawConfig where
  pythonDllPath : Option String
  senzingRoot : Option String

/-- Result of running a script on a configuration file. -/
inductive ScriptResult where
  | keyErrorAt (key : String)
  | ran (run : AdsRun)

/-- The whole `add_data_sources.py` script: line 25 reads
`CONFIG["python"]["dll_path"]` and line 38 reads
`CONFIG["senzing"]["senzing_root"]`, both at module level before the `try`
block that builds the environment; a missing key raises `KeyError` there,
and only when both lookups succeed does the engine part of the script run. -/
def add_data_sources_script (c : RawConfig) (o : AdsOracle) : ScriptResult :=
  match c.pythonDllPath with
  | none => ScriptResult.keyErrorAt "python.dll_path"
  | some _ =>
      match c.senzingRoot with
      | none => ScriptResult.keyErrorAt "senzing.senzing_root"
      | some _ => ScriptResult.ran (addDataSources o)

/-- The engine calls made by a script run: none when the run died on a
`KeyError` before reaching the engine. -/
def scriptEngineTrace : ScriptResult → List AdsEvent
  | ScriptResult.keyErrorAt _ => []
  | ScriptResult.ran r => r.trace

/-- The prologue of `senzing_python_net_example.py`: line 55 reads
`CONFIG["python"]["dll_path"]` before `import clr`, and line 387 (in `main`,
before the `try` block that constructs `SenzingClient`) reads
`CONFIG["senzing"]["senzing_root"]`; a missing key raises `KeyError` before
any engine session is opened, and `SenzingClient` is only constructed from
the returned pair. -/
def example_script_prologue (c : RawConfig) : Except String (String × String) :=
  match c.pythonDllPath with
  | none => Except.error "KeyError: python.dll_path"
  | some dll =>
      match c.senzingRoot with
      | none => Except.error "KeyError: senzing.senzing_root"
      | some root => Except.ok (dll, root)

/-! ## Runtime-bridge configuration -/

/-- What the runtime-bridge block of a script did: whether the failure was fatal,
whether the process continues on the default runtime, and the status lines
it printed. -/
structure BridgeOutcome where
  fatal : Bool
  usesDefaultRuntime : Bool
  notes : List String

/-- Lines 27-33 of `add_data_sources.py`: `set_runtime` configuration in a
`try` whose handler is `except Exception: pass` — a failure is swallowed
with no output and the script continues on the default runtime. -/
def bridge_add_data_sources (bridgeFails : Bool) : BridgeOutcome :=
  if bridgeFails then
    { fatal := false, usesDefaultRuntime := true, notes := [] }
  else
    { fatal := false, usesDefaultRuntime := false, notes := [] }

/-- Lines 29-38 of `initialize_config.py`: the handler prints
`Note: Using default runtime: ...` and continues; the success path prints a
runtime banner. -/
def bridge_initConfig (bridgeFails : Bool) : BridgeOutcome :=
  if bridgeFails then
    { fatal := false, usesDefaultRuntime := true,
      notes := ["Note: Using default runtime"] }
  else
    { fatal := false, usesDefaultRuntime := false,
      notes := ["Using .NET Framework x64 runtime"] }

/-- Lines 58-65 of `senzing_python_net_example.py`: like
`add_data_sources.py`, the handler is `except Exception: pass` — silent
fallback to the default runtime. -/
def bridge_example (bridgeFails : Bool) : BridgeOutcome :=
  if bridgeFails then
    { fatal := false, usesDefaultRuntime := true, notes := [] }
  else
    { fatal := false, usesDefaultRuntime := false, notes := [] }

/-! ## Default-config replacement (compare-and-swap) -/

/-- Modelled from the spec: the external SDK method `ReplaceDefaultConfigID`
(the SDK itself is not part of this repository) succeeds only if the
current default config id of the engine equals the expected old id at call time,
and fails without changing the default otherwise. -/
def engineReplaceDefaultConfigID (currentDefault expectedOld newId : Int) :
    Except String Int :=
  if currentDefault = expectedOld then Except.ok newId
  else Except.error "replaceDefaultConfigID: current default id differs"

/-- The replacement step of the script (lines 79 and 126 of
`add_data_sources.py`): the script read `readId` as the default, a
concurrent writer may have since set the default to `currentNow`, and the
script calls `ReplaceDefaultConfigID(readId, newId)`.  Returns whether the
call succeeded and the default config id of the engine afterwards. -/
def replaceAfterConcurrentWrite (readId currentNow newId : Int) :
    Bool × Int :=
  match engineReplaceDefaultConfigID currentNow readId newId with
  | Except.ok v => (true, v)
  | Except.error _ => (false, currentNow)

/-! ## Exit codes of `initialize_config.py` and the example script -/

/-- What `GetDefaultConfigID` does at lines 92-106 of
`initialize_config.py`: it either raises (caught by the inner handler and
treated as "no configuration exists") or returns an id. -/
inductive IcDefaultId where
  | raises
  | found (id : Int)

/-- The failures the inner handlers of `initialize_config.py` can observe:
the template file read (lines 111-119), `RegisterConfig` (lines 124-135),
`SetDefaultConfigID` (lines 140-147) — each caught, `Destroy`, `exit(1)` —
and the verification `GetDefaultConfigID` (lines 152-162), caught and merely
logged. -/
structure IcOracle where
  defaultId : IcDefaultId
  templateReadFails : Bool
  registerConfigFails : Bool
  setDefaultFails : Bool
  verifyFails : Bool

/-- Outcome of one run of the `initialize_config.py` module body after the
environment was built: the process exit code and how many exceptions were
caught by handlers that let the run continue (the missing-default probe and
the verification step). -/
structure IcRun where
  exitCode : Nat
  caughtNonFatal : Nat

/-- Whether `initialize_config.py` exits 0 at lines 97-100 because a valid
configuration (id greater than 0) already exists. -/
def icNothingToDo (o : IcOracle) : Bool :=
  match o.defaultId with
  | IcDefaultId.raises => false
  | IcDefaultId.found id => decide (0 < id)

/-- The part of `initialize_config.py` after the existing-configuration
check (lines 108-171): read the template, register it, set it as default —
each failure caught by its own handler which destroys the environment and
exits 1 — then verify, whose failure is caught and only logged, and fall off
the module end with exit code 0. -/
def icAfterCheck (caught : Nat) (o : IcOracle) : IcRun :=
  if o.templateReadFails then { exitCode := 1, caughtNonFatal := caught }
  else if o.registerConfigFails then { exitCode := 1, caughtNonFatal := caught }
  else if o.setDefaultFails then { exitCode := 1, caughtNonFatal := caught }
  else if o.verifyFails then { exitCode := 0, caughtNonFatal := caught + 1 }
  else { exitCode := 0, caughtNonFatal := caught }

/-- The module body of `initialize_config.py` (lines 87-171), given the
environment was built: probe for an existing default configuration — a
raising probe is caught and treated as "none exists", a positive id exits 0
at once (nothing to do) — then create and register the configuration. -/
def initConfigRun (o : IcOracle) : IcRun :=
  match o.defaultId with
  | IcDefaultId.raises => icAfterCheck 1 o
  | IcDefaultId.found id =>
      if 0 < id then { exitCode := 0, caughtNonFatal := 0 }
      else icAfterCheck 0 o

/-- Outcome of `main()` in `senzing_python_net_example.py`. -/
structure ExMainRun where
  exitCode : Nat
  caughtNonFatal : Nat

/-- The `main()` function of `senzing_python_net_example.py` (lines
383-549): the why/how analysis block has its own handler (lines 523-524)
that catches, logs, and continues; any other exception in the `try` body
reaches the handler at lines 539-543 and `main` returns 1, else it returns
0, and `sys.exit(main())` makes that the process exit code.  `fatalOp =
some after` means some engine call outside the why/how block raises, with
`after` recording whether it happens after that block ran (and possibly had
its failure caught). -/
def example_main (whyHowFails : Bool) (fatalOp : Option Bool) : ExMainRun :=
  match fatalOp with
  | some after =>
      { exitCode := 1,
        caughtNonFatal := if after && whyHowFails then 1 else 0 }
  | none =>
      { exitCode := 0, caughtNonFatal := if whyHowFails then 1 else 0 }

end SzPythonNet

namespace SzPythonNet

/-! ## Lemmas about the redo loop -/

/-- The redo loop yields exactly the first `maxRecords - processed` fetched
records. -/
theorem redoGo_yields (maxRecords : Nat) :
    ∀ (processed : Nat) (q : List String),
      (redoGo maxRecords processed q).1 = q.take (maxRecords - processed) := by
  intro processed q
  induction q generalizing processed with
  | nil => simp [redoGo]
  | cons r rest ih =>
      by_cases h : processed < maxRecords
      · have hs : maxRecords - processed = (maxRecords - (processed + 1)) + 1 := by
          omega
        simp [redoGo, h, ih (processed + 1), hs]
      · have hz : maxRecords - processed = 0 := by omega
        simp [redoGo, h, hz]

/-- The redo loop makes one `GetRedoRecord` call per processed record plus
one final call (the call that returned `None`, or the call whose result the
cap test discards). -/
theorem redoGo_fetches (maxRecords : Nat) :
    ∀ (processed : Nat) (q : List String),
      (redoGo maxRecords processed q).2 =
        min q.length (maxRecords - processed) + 1 := by
  intro processed q
  induction q generalizing processed with
  | nil => simp [redoGo]
  | cons r rest ih =>
      by_cases h : processed < maxRecords
      · simp only [redoGo, h, if_true, ih (processed + 1), List.length_cons]
        omega
      · have hz : maxRecords - processed = 0 := by omega
        simp [redoGo, h, hz]

/-- Replicated `FetchNext` events contribute no `CloseExport` events. -/
theorem countP_isCloseExport_replicate_fetch (n : Nat) :
    (List.replicate n ExpEvent.fetchNext).countP isCloseExport = 0 := by
  induction n with
  | zero => simp
  | succ k ih => simp [List.replicate_succ, List.countP_cons, ih, isCloseExport]

/-- With no effective cap the export loop yields every available entity. -/
theorem exportYields_none (available : List String) :
    ∀ count : Nat, exportYields none count available = available := by
  induction available with
  | nil => intro count; simp [exportYields]
  | cons e rest ih =>
      intro count
      simp [exportYields, pyCapReached, ih (count + 1)]

/-- A cap of `0` is falsy in the loop guard, so it never fires. -/
theorem exportYields_zero_cap (available : List String) :
    ∀ count : Nat,
      exportYields (some 0) count available = exportYields none count available := by
  induction available with
  | nil => intro count; simp [exportYields]
  | cons e rest ih =>
      intro count
      simp [exportYields, pyCapReached, ih (count + 1)]

/-- Extracting the registered codes from a block of `RegisterDataSource`
events recovers the code list. -/
theorem filterMap_registerCode_comp (l : List String) :
    List.filterMap (registerCode ∘ AdsEvent.registerDataSource) l = l := by
  induction l with
  | nil => rfl
  | cons c rest ih =>
      simp [List.filterMap_cons, Function.comp, registerCode, ih]

/-! ## Claim theorems -/

/-- C5: for every cap `N` and every number `A` of redo records available from
the engine, `process_redo_records(max_records=N)` processes and yields exactly
`min(A, N)` items: at most `N` even when more are pending, and all `A` when
`A ≤ N`. -/
theorem C5_redo_cap_min (maxRecords : Nat) (queue : List String) :
    (process_redo_records maxRecords queue).1.length =
      min queue.length maxRecords := by
  simp only [process_redo_records, redoGo_yields, Nat.sub_zero,
    List.length_take]
  omega

/-- C9: whenever more redo records are pending than the cap,
`process_redo_records(max_records=N)` calls `GetRedoRecord` exactly `N + 1`
times, and the records it processes and yields are exactly the first `N`
pending ones — the last fetched record is neither processed nor yielded. -/
theorem C9_redo_extra_fetch (maxRecords : Nat) (queue : List String)
    (h : maxRecords < queue.length) :
    (process_redo_records maxRecords queue).2 = maxRecords + 1 ∧
      (process_redo_records maxRecords queue).1 = queue.take maxRecords := by
  refine ⟨?_, ?_⟩
  · simp only [process_redo_records, redoGo_fetches, Nat.sub_zero]
    omega
  · simp [process_redo_records, redoGo_yields]

/-- C9 witness: cap 1 with 3 pending records makes exactly 2 `GetRedoRecord`
calls and yields only the first record. -/
theorem C9_redo_extra_fetch_witness :
    (process_redo_records 1 ["a", "b", "c"]).2 = 1 + 1 ∧
      (process_redo_records 1 ["a", "b", "c"]).1 = ["a", "b", "c"].take 1 :=
  C9_redo_extra_fetch 1 ["a", "b", "c"] (by decide)

/-- C4: every use of `export_json_entities` that opens an export cursor —
whether iteration ends by early break, by an exception (modelled by the
consumer abandoning after `k` yields), or by natural exhaustion — issues
exactly one `CloseExport` call on that cursor (and opened it exactly once). -/
theorem C4_export_close_once (maxEntities : Option Nat)
    (available : List String) (consumerStop : Option Nat) :
    (exportRun maxEntities available consumerStop).trace.countP
        isCloseExport = 1 ∧
      (exportRun maxEntities available consumerStop).trace.countP
        isOpenExport = 1 := by
  constructor
  · cases consumerStop with
    | none =>
        simp [exportRun, List.countP_cons, List.countP_append, isCloseExport,
          isOpenExport, countP_isCloseExport_replicate_fetch]
    | some k =>
        by_cases h : k < (exportYields maxEntities 0 available).length <;>
          simp [exportRun, h, List.countP_cons, List.countP_append,
            isCloseExport, countP_isCloseExport_replicate_fetch]
  · cases consumerStop with
    | none =>
        simp [exportRun, List.countP_cons, List.countP_append, isOpenExport,
          isCloseExport, List.countP_eq_zero]
    | some k =>
        by_cases h : k < (exportYields maxEntities 0 available).length <;>
          simp [exportRun, h, List.countP_cons, List.countP_append,
            isOpenExport, List.countP_eq_zero]

/-- C10: calling `export_json_entities` with `max_entities = 0` behaves
exactly like `max_entities = None`: the cap test treats `0` as falsy, so the
run is identical and in particular every available entity is yielded. -/
theorem C10_zero_cap_unlimited (available : List String)
    (consumerStop : Option Nat) :
    exportRun (some 0) available consumerStop =
        exportRun none available consumerStop ∧
      (exportRun (some 0) available none).yielded = available := by
  constructor
  · simp [exportRun, exportYields_zero_cap, exportYields_none]
  · simp [exportRun, exportYields_zero_cap, exportYields_none]

/-- C1: on a run where every engine call succeeds, `add_data_sources.py`
issues `RegisterDataSource` calls exactly for the candidate codes not yet in
the registry (so exactly `N` calls for `N` absent codes and none for the `M`
present ones, the registry having been read first), and the resulting
default registry is the union of the prior registry and those new codes. -/
theorem C1_registration_idempotent (registry : List String) :
    registerCalls (addDataSources (allOkOracle registry)).trace =
        dataSourcesToAdd registry ∧
      (registerCalls (addDataSources (allOkOracle registry)).trace).length =
        (dataSourcesToAdd registry).length ∧
      ∀ c : String,
        c ∈ (addDataSources (allOkOracle registry)).registryAfter ↔
          c ∈ registry ∨ c ∈ dataSourcesToAdd registry := by
  by_cases h : (dataSourcesToAdd registry).isEmpty
  · have hnil : dataSourcesToAdd registry = [] := by
      simpa [List.isEmpty_iff] using h
    refine ⟨?_, ?_, ?_⟩ <;>
      simp [addDataSources, allOkOracle, h, hnil, registerCalls, registerCode]
  · refine ⟨?_, ?_, ?_⟩ <;>
      simp [addDataSources, allOkOracle, h, registerCalls, registerCode,
        List.filterMap_append, filterMap_registerCode_comp]

/-- C2: replacing the default configuration id is a compare-and-swap: the
call made by `add_data_sources.py` succeeds exactly when the current
default of the engine still equals the id the script read, and when a concurrent
writer changed the default in between, the call fails and the recorded
default remains the value set by the concurrent writer. -/
theorem C2_replace_default_cas (readId currentNow newId : Int) :
    ((replaceAfterConcurrentWrite readId currentNow newId).1 = true ↔
        currentNow = readId) ∧
      (currentNow ≠ readId →
        (replaceAfterConcurrentWrite readId currentNow newId).2 =
          currentNow) := by
  constructor
  · by_cases h : currentNow = readId <;>
      simp [replaceAfterConcurrentWrite, engineReplaceDefaultConfigID, h]
  · intro h
    simp [replaceAfterConcurrentWrite, engineReplaceDefaultConfigID, h]

/-- C2 witness: the script read id 5, a concurrent writer set the default
to 7, and the replacement call leaves the default at 7. -/
theorem C2_replace_default_cas_witness :
    (replaceAfterConcurrentWrite 5 7 9).2 = 7 :=
  (C2_replace_default_cas 5 7 9).2 (by decide)

/-- C3: a concrete run of `add_data_sources.py` refuting the every-exit-path
guarantee: the environment is built, both candidate codes are missing, every
registration succeeds, but `ReplaceDefaultConfigID` raises; the exception
reaches the top-level handler, the script exits 1, and `env.Destroy()` is
never called — zero `Destroy` events in the trace instead of one. -/
theorem C3_destroy_skipped_on_exception :
    (addDataSources
        { registry := [], registerFails := fun _ => false,
          replaceFails := true }).exitCode = 1 ∧
      ((addDataSources
          { registry := [], registerFails := fun _ => false,
            replaceFails := true }).trace.countP isDestroy) = 0 := by
  constructor
  · rfl
  · rfl

/-- C6 counterexample: in `add_data_sources.py` a runtime-bridge failure is
caught (non-fatal) but no note about the fallback is printed — the handler
is `except Exception: pass` — refuting the claim that every script prints a
fallback note. -/
theorem C6_counterexample_silent_fallback :
    (bridge_add_data_sources true).fatal = false ∧
      (bridge_add_data_sources true).usesDefaultRuntime = true ∧
      (bridge_add_data_sources true).notes = [] := by
  refine ⟨rfl, rfl, rfl⟩

/-- C6 amended: in every script a runtime-bridge failure is non-fatal and
execution continues on the default runtime, but only `initialize_config.py`
prints a note about the fallback; `add_data_sources.py` and
`senzing_python_net_example.py` swallow the failure silently. -/
theorem C6_bridge_failure_nonfatal :
    (∀ b : Bool,
        (bridge_add_data_sources b).fatal = false ∧
        (bridge_initConfig b).fatal = false ∧
        (bridge_example b).fatal = false) ∧
      (bridge_add_data_sources true).usesDefaultRuntime = true ∧
      (bridge_initConfig true).usesDefaultRuntime = true ∧
      (bridge_example true).usesDefaultRuntime = true ∧
      (bridge_initConfig true).notes = ["Note: Using default runtime"] ∧
      (bridge_add_data_sources true).notes = [] ∧
      (bridge_example true).notes = [] := by
  refine ⟨fun b => ?_, rfl, rfl, rfl, rfl, rfl, rfl⟩
  cases b <;> exact ⟨rfl, rfl, rfl⟩

/-- C7: for every configuration file missing a required key, the scripts
fail with a key-lookup error before any engine session is opened:
`add_data_sources.py` ends in a `KeyError` with an empty engine trace, and
the prologue of the example script errors out before `SenzingClient` can be
constructed. -/
theorem C7_missing_key_fails_before_engine (c : RawConfig) (o : AdsOracle)
    (h : c.pythonDllPath = none ∨ c.senzingRoot = none) :
    (∃ k : String, add_data_sources_script c o = ScriptResult.keyErrorAt k) ∧
      scriptEngineTrace (add_data_sources_script c o) = [] ∧
      ∃ e : String, example_script_prologue c = Except.error e := by
  rcases h with h | h
  · refine ⟨⟨"python.dll_path", ?_⟩, ?_, ⟨"KeyError: python.dll_path", ?_⟩⟩ <;>
      simp [add_data_sources_script, example_script_prologue, h,
        scriptEngineTrace]
  · cases hp : c.pythonDllPath with
    | none =>
        refine ⟨⟨"python.dll_path", ?_⟩, ?_,
            ⟨"KeyError: python.dll_path", ?_⟩⟩ <;>
          simp [add_data_sources_script, example_script_prologue, hp,
            scriptEngineTrace]
    | some dll =>
        refine ⟨⟨"senzing.senzing_root", ?_⟩, ?_,
            ⟨"KeyError: senzing.senzing_root", ?_⟩⟩ <;>
          simp [add_data_sources_script, example_script_prologue, hp, h,
            scriptEngineTrace]

/-- C7 witness: a configuration file with no `python.dll_path` entry makes
`add_data_sources.py` die on a `KeyError` with no engine call attempted. -/
theorem C7_missing_key_fails_before_engine_witness :
    (∃ k : String,
        add_data_sources_script
            { pythonDllPath := none, senzingRoot := some "C:\\Senzing" }
            (allOkOracle []) =
          ScriptResult.keyErrorAt k) ∧
      scriptEngineTrace
          (add_data_sources_script
            { pythonDllPath := none, senzingRoot := some "C:\\Senzing" }
            (allOkOracle [])) = [] ∧
      ∃ e : String,
        example_script_prologue
            { pythonDllPath := none, senzingRoot := some "C:\\Senzing" } =
          Except.error e :=
  C7_missing_key_fails_before_engine
    { pythonDllPath := none, senzingRoot := some "C:\\Senzing" }
    (allOkOracle []) (Or.inl rfl)

/-- C8 counterexample: a run of `add_data_sources.py` in which the
`RegisterDataSource` call for `CUSTOMERS` raises: the per-item handler
catches and logs it, the rest of the run succeeds, and the process exits 0
even though an exception was caught during operation — refuting "1 on any
caught exception". -/
theorem C8_counterexample_caught_but_exit_zero :
    (addDataSources
        { registry := [], registerFails := fun c => c == "CUSTOMERS",
          replaceFails := false }).exitCode = 0 ∧
      (addDataSources
          { registry := [], registerFails := fun c => c == "CUSTOMERS",
            replaceFails := false }).perItemCaught = ["CUSTOMERS"] := by
  constructor
  · rfl
  · rfl

/-- C8 amended: every script exits 0 on success or when there is nothing to
do, and 1 exactly when an exception reaches a fatal handler —
`add_data_sources.py` exits 1 exactly when `ReplaceDefaultConfigID` fails on
a run that had codes to add (per-item registration failures leave it 0);
`initialize_config.py` exits 1 exactly when the template read,
`RegisterConfig`, or `SetDefaultConfigID` fails on a run that was not
nothing-to-do (the missing-default probe and a verification failure are
caught and leave it 0, as the concrete runs show);
`senzing_python_net_example.py` exits with `main() = 1` exactly when an
exception outside the why/how block reaches the handler of `main` (a caught
why/how failure leaves it 0). -/
theorem C8_exit_codes (o : AdsOracle) (ic : IcOracle) (whyHowFails : Bool)
    (fatalOp : Option Bool) :
    (addDataSources o).exitCode =
        (if o.replaceFails && !(dataSourcesToAdd o.registry).isEmpty then 1
          else 0) ∧
      (initConfigRun ic).exitCode =
        (if !(icNothingToDo ic) && (ic.templateReadFails ||
            ic.registerConfigFails || ic.setDefaultFails) then 1 else 0) ∧
      (example_main whyHowFails fatalOp).exitCode =
        (if fatalOp.isSome then 1 else 0) ∧
      (initConfigRun
          { defaultId := IcDefaultId.raises, templateReadFails := false,
            registerConfigFails := false, setDefaultFails := false,
            verifyFails := true }).exitCode = 0 ∧
      (initConfigRun
          { defaultId := IcDefaultId.raises, templateReadFails := false,
            registerConfigFails := false, setDefaultFails := false,
            verifyFails := true }).caughtNonFatal = 2 ∧
      (example_main true none).exitCode = 0 ∧
      (example_main true none).caughtNonFatal = 1 := by
  refine ⟨?_, ?_, ?_, rfl, rfl, rfl, rfl⟩
  · by_cases h : (dataSourcesToAdd o.registry).isEmpty
    · simp [addDataSources, h]
    · by_cases hr : o.replaceFails <;> simp [addDataSources, h, hr]
  · cases hd : ic.defaultId with
    | raises =>
        by_cases t : ic.templateReadFails <;>
        by_cases r : ic.registerConfigFails <;>
        by_cases s : ic.setDefaultFails <;>
        by_cases v : ic.verifyFails <;>
          simp [initConfigRun, icAfterCheck, icNothingToDo, hd, t, r, s, v]
    | found id =>
        by_cases hid : (0 : Int) < id <;>
        by_cases t : ic.templateReadFails <;>
        by_cases r : ic.registerConfigFails <;>
        by_cases s : ic.setDefaultFails <;>
        by_cases v : ic.verifyFails <;>
          simp [initConfigRun, icAfterCheck, icNothingToDo, hd, hid, t, r,
            s, v]
  · cases fatalOp <;> simp [example_main]

end SzPythonNet
